import Mathlib

/-!
Verification of the grace subprocess supervisor.

The repository contains four near-identical Go files. This development
embeds them as pure Lean functions over explicit environments describing
what the operating system does during one call:

* namespace `Grace.ExecGo` embeds `src/exec.go`, whose `Output` carries an
  `ExitCode` field and whose background unit turns a wait error of kind
  `exec.ExitError` into a successful `Output`.
* namespace `Grace.Part0` embeds the `Spawn` function and `Output` type of
  `src/unnamed/part_000`; the `Spawn` functions in both files of
  `src/unnamed/part_001` are textually identical to it.  Here `Output` has
  no exit code field and every wait error is sent to the error channel.
* namespace `Grace.PartB` embeds the convenience entries of the second file
  of `src/unnamed/part_001` (`RunShTimed`, `RunTimed`, `Combine`,
  `strings.Fields`).

Concurrency is modelled explicitly.  The background goroutine is a straight
line program, so its behaviour given the results of the two `io.ReadAll`
calls and of `cmd.Wait` is the ordered list of channel sends it attempts
(`sends`).  Both channels are buffered with capacity one and the supervisor
executes a single `select` over `outChan`, `errChan` and `ctx.Done()`:

* if the deadline resolves the race (`Sched.deadlineFirst`), the supervisor
  runs the kill sequence and never touches the channels;
* otherwise the supervisor receives a delivery.  If the goroutine attempted
  exactly one error send followed by the output send, both buffers can be
  full when the select runs and Go chooses a ready case pseudo-randomly
  (`Sched.pickOutWhenBoth`).  In every other shape the supervisor can only
  receive the first attempted send: a second error send blocks on the full
  one-slot buffer until the single receive of the supervisor consumes the
  first error, and after that receive the supervisor has already returned.
  The function `received` captures exactly these possibilities.
-/

namespace Grace

/-- Errors of the Go program: the sentinel errors `ErrTimeout` and
`ErrFailToKill`, a `*exec.ExitError` carrying the exit status of the child,
any other OS-level error (identified by an arbitrary tag), and the result of
`errors.Join(a, b, c)` as produced on the failed-kill path. -/
inductive GoErr where
  | timeout : GoErr
  | failToKill : GoErr
  | exitError (code : Int) : GoErr
  | osErr (n : Nat) : GoErr
  | join3 (a b c : GoErr) : GoErr
deriving DecidableEq

/-- Go `errors.Is` restricted to the error trees this program builds: an
error matches a target when it equals it, or when it is a join and one of
the joined errors matches the target. -/
def GoErr.is (e t : GoErr) : Bool :=
  match e with
  | GoErr.join3 a b c =>
      decide (GoErr.join3 a b c = t) || a.is t || b.is t || c.is t
  | e2 => decide (e2 = t)

/-- Result of one `io.ReadAll` call: the bytes obtained (as text) and the
error, if any.  `io.ReadAll` returns a nil error exactly when the stream was
read to end of stream. -/
structure ReadRes where
  data : String
  err : Option GoErr
deriving DecidableEq

/-- A pipe is fully drained exactly when its `io.ReadAll` reached end of
stream, i.e. returned no error. -/
def fullyDrained (r : ReadRes) : Bool := r.err.isNone

/-- Environment of the background goroutine: the results of the two
`io.ReadAll` calls and of `cmd.Wait`.  A wait result of `none` means `Wait`
returned nil (exit status 0); `some (GoErr.exitError c)` means it returned a
`*exec.ExitError` with `ExitCode() = c`; any other error means the wait
itself failed. -/
structure GEnv where
  readOut : ReadRes
  readErr : ReadRes
  wait : Option GoErr
deriving DecidableEq

/-- Exit status reported by the wait, when it reports termination via an
exit status: nil wait error means status 0, an `exec.ExitError` carries its
code, and any other wait error reports no exit status. -/
def waitCode : Option GoErr → Option Int
  | none => some 0
  | some (GoErr.exitError c) => some c
  | some _ => none

/-- Environment of one `Spawn` call: results of the pipe creations and of
`cmd.Start`, the process identifier, the goroutine environment, and the
results of the two `unix.Kill` syscalls on the timeout path (`none` means
the signal was sent without an OS error). -/
structure SpawnEnv where
  stdoutPipeErr : Option GoErr
  stderrPipeErr : Option GoErr
  startErr : Option GoErr
  pid : Int
  g : GEnv
  sigterm : Option GoErr
  sigkill : Option GoErr
deriving DecidableEq

/-- Resolution of the nondeterminism in the select of the supervisor:
whether the deadline wins the three-way race, and, when both the error and
the output buffer are filled before the select runs, which of the two ready
cases Go picks. -/
structure Sched where
  deadlineFirst : Bool
  pickOutWhenBoth : Bool
deriving DecidableEq

/-- A channel send attempted by the background goroutine, to `errChan` or
to `outChan`; the payload type of `outChan` differs between the variants. -/
inductive Delivery (ω : Type) where
  | toErrChan (e : GoErr) : Delivery ω
  | toOutChan (o : ω) : Delivery ω
deriving DecidableEq

/-- The delivery the supervisor receives from its single select, given the
ordered list of sends the goroutine attempts.  With one error send followed
by the output send both one-slot buffers can be full when the select runs,
so the choice falls to the scheduler; in every other shape only the first
attempted send is receivable (a second error send blocks on the full buffer
until the first is consumed, and consuming it already returns from the
supervisor). -/
def received {ω : Type} (sends : List (Delivery ω)) (pickOut : Bool) :
    Option (Delivery ω) :=
  match sends with
  | [Delivery.toErrChan e, Delivery.toOutChan o] =>
      some (if pickOut then Delivery.toOutChan o else Delivery.toErrChan e)
  | d :: _ => some d
  | [] => none

/-- First error of the launch phase, in program order: stdout pipe
creation, then stderr pipe creation, then `cmd.Start`. -/
def launchErr (env : SpawnEnv) : Option GoErr :=
  match env.stdoutPipeErr with
  | some e => some e
  | none =>
    match env.stderrPipeErr with
    | some e => some e
    | none => env.startErr

/-- Whether the background goroutine is started: true exactly when the
whole launch phase succeeded. -/
def backgroundStarted (env : SpawnEnv) : Bool := (launchErr env).isNone

/-- Signal number of SIGTERM. -/
def SIGTERM : Nat := 15

/-- Signal number of SIGKILL. -/
def SIGKILL : Nat := 9

namespace ExecGo

/-- Output of `src/exec.go`: captured stdout text, captured stderr text and
the exit code. -/
structure Output where
  StdOut : String
  StdErr : String
  ExitCode : Int
deriving DecidableEq

/-- Method `Combine` of `src/exec.go`: concatenation of stdout and stderr. -/
def Output.Combine (o : Output) : String := o.StdOut ++ o.StdErr

/-- The zero value `Output{}` returned by `Spawn` on every error path. -/
def zeroOutput : Output := { StdOut := "", StdErr := "", ExitCode := 0 }

/-- Sends attempted, in program order, by the goroutine of `src/exec.go`:
an error send for each failed read, then, depending on the wait result,
either the output send (with exit code 0 for a nil wait error and code `c`
for an `exec.ExitError`) or an error send followed by return. -/
def sends (g : GEnv) : List (Delivery Output) :=
  (match g.readOut.err with
   | some e => [Delivery.toErrChan e]
   | none => [])
  ++ (match g.readErr.err with
   | some e => [Delivery.toErrChan e]
   | none => [])
  ++ (match g.wait with
   | none =>
     [Delivery.toOutChan
       { StdOut := g.readOut.data, StdErr := g.readErr.data, ExitCode := 0 }]
   | some (GoErr.exitError c) =>
     [Delivery.toOutChan
       { StdOut := g.readOut.data, StdErr := g.readErr.data, ExitCode := c }]
   | some e => [Delivery.toErrChan e])

/-- Number of error-channel sends the goroutine of `src/exec.go` attempts
before reaching the `cmd.Wait` call: one for each failed read. -/
def errSendsBeforeWait (g : GEnv) : Nat :=
  (if g.readOut.err.isSome then 1 else 0)
  + (if g.readErr.err.isSome then 1 else 0)

/-- The goroutine reaches the `cmd.Wait` call under every scheduling when at
most one error send precedes it, since a single error send always fits into
the empty one-slot buffer and cannot block. -/
def waitAlwaysReached (g : GEnv) : Bool :=
  decide (errSendsBeforeWait g ≤ 1)

/-- The `Spawn` function of `src/exec.go`: launch phase, then the race of
the completion channels against the deadline; on deadline expiry, SIGTERM
to the negated process group, escalating to SIGKILL, escalating to the
joined error. -/
def Spawn (env : SpawnEnv) (sch : Sched) : Output × Option GoErr :=
  match env.stdoutPipeErr with
  | some e => (zeroOutput, some e)
  | none =>
    match env.stderrPipeErr with
    | some e => (zeroOutput, some e)
    | none =>
      match env.startErr with
      | some e => (zeroOutput, some e)
      | none =>
        if sch.deadlineFirst then
          match env.sigterm with
          | none => (zeroOutput, some GoErr.timeout)
          | some _ =>
            match env.sigkill with
            | none => (zeroOutput, some GoErr.timeout)
            | some e2 =>
              (zeroOutput, some (GoErr.join3 e2 GoErr.timeout GoErr.failToKill))
        else
          match received (sends env.g) sch.pickOutWhenBoth with
          | some (Delivery.toOutChan o) => (o, none)
          | some (Delivery.toErrChan e) => (zeroOutput, some e)
          | none => (zeroOutput, none)

/-- Kill syscalls issued by `Spawn` of `src/exec.go`, as pairs of target and
signal number: none unless the launch succeeded and the deadline fired;
then SIGTERM to the negated pid, followed by SIGKILL to the negated pid when
the SIGTERM send returned an error. -/
def killCalls (env : SpawnEnv) (sch : Sched) : List (Int × Nat) :=
  if launchErr env = none then
    if sch.deadlineFirst then
      match env.sigterm with
      | none => [(-env.pid, SIGTERM)]
      | some _ => [(-env.pid, SIGTERM), (-env.pid, SIGKILL)]
    else []
  else []

/-- Deliveries ever attempted on the completion channels of one call: none
at all when the launch failed, since the goroutine is only started after a
successful `cmd.Start`. -/
def deliveries (env : SpawnEnv) : List (Delivery Output) :=
  if backgroundStarted env then sends env.g else []

/-- Argument vector that `RunTimedSh` of `src/exec.go` hands to the OS: the
command text is passed to `sh -c` unmodified. -/
def runTimedShArgv (command : String) : List String := ["sh", "-c", command]

/-- The `RunTimedSh` function of `src/exec.go`: run the shell command
through `Spawn`; on error return the empty string and the error, on success
return the combined output text. -/
def RunTimedSh (_command : String) (env : SpawnEnv) (sch : Sched) :
    String × Option GoErr :=
  match Spawn env sch with
  | (output, none) => (output.Combine, none)
  | (_, some e) => ("", some e)

end ExecGo

namespace Part0

/-- Output of `src/unnamed/part_000` and of both files of
`src/unnamed/part_001`: captured stdout and stderr text, no exit code. -/
structure Output where
  StdOut : String
  StdErr : String
deriving DecidableEq

/-- Method `Combine` of the files of `src/unnamed/part_001`. -/
def Output.Combine (o : Output) : String := o.StdOut ++ o.StdErr

/-- The zero value `Output{}` returned by this `Spawn` on error paths. -/
def zeroOutput : Output := { StdOut := "", StdErr := "" }

/-- Sends attempted, in program order, by the goroutine of
`src/unnamed/part_000` (identical in both files of `src/unnamed/part_001`):
an error send for each failed read, an error send for any non-nil wait
error (an `exec.ExitError` of a non-zero exit included), and then,
unconditionally, the output send. -/
def sends (g : GEnv) : List (Delivery Output) :=
  (match g.readOut.err with
   | some e => [Delivery.toErrChan e]
   | none => [])
  ++ (match g.readErr.err with
   | some e => [Delivery.toErrChan e]
   | none => [])
  ++ (match g.wait with
   | some e => [Delivery.toErrChan e]
   | none => [])
  ++ [Delivery.toOutChan { StdOut := g.readOut.data, StdErr := g.readErr.data }]

/-- The `Spawn` function of `src/unnamed/part_000`, textually identical in
both files of `src/unnamed/part_001`. -/
def Spawn (env : SpawnEnv) (sch : Sched) : Output × Option GoErr :=
  match env.stdoutPipeErr with
  | some e => (zeroOutput, some e)
  | none =>
    match env.stderrPipeErr with
    | some e => (zeroOutput, some e)
    | none =>
      match env.startErr with
      | some e => (zeroOutput, some e)
      | none =>
        if sch.deadlineFirst then
          match env.sigterm with
          | none => (zeroOutput, some GoErr.timeout)
          | some _ =>
            match env.sigkill with
            | none => (zeroOutput, some GoErr.timeout)
            | some e2 =>
              (zeroOutput, some (GoErr.join3 e2 GoErr.timeout GoErr.failToKill))
        else
          match received (sends env.g) sch.pickOutWhenBoth with
          | some (Delivery.toOutChan o) => (o, none)
          | some (Delivery.toErrChan e) => (zeroOutput, some e)
          | none => (zeroOutput, none)

end Part0

namespace PartB

/-- A single-quote character as a one-character string. -/
def squote : String := String.mk [Char.ofNat 39]

/-- Argument vector that `RunShTimed` of the second file of
`src/unnamed/part_001` hands to the OS: the command text is wrapped in
literal single quotes by `fmt.Sprintf` before being passed to `sh -c`. -/
def runShTimedArgv (command : String) : List String :=
  ["sh", "-c", squote ++ command ++ squote]

/-- The `RunShTimed` function of the second file of `src/unnamed/part_001`:
run the quoted shell command through `Spawn`; on error return the empty
string and the error, on success the combined output text. -/
def RunShTimed (_command : String) (env : SpawnEnv) (sch : Sched) :
    String × Option GoErr :=
  match Part0.Spawn env sch with
  | (output, none) => (output.Combine, none)
  | (_, some e) => ("", some e)

/-- Helper of `goFields`: accumulate the current word (reversed) while
scanning the characters. -/
def fieldsAux : List Char → List Char → List String
  | cur, [] => if cur.isEmpty then [] else [String.mk cur.reverse]
  | cur, c :: cs =>
    if c.isWhitespace then
      if cur.isEmpty then fieldsAux [] cs
      else String.mk cur.reverse :: fieldsAux [] cs
    else fieldsAux (c :: cur) cs

/-- Embedding of Go `strings.Fields`: split the string around maximal runs
of whitespace, dropping empty pieces. -/
def goFields (s : String) : List String := fieldsAux [] s.data

/-- Tokenization performed by `RunTimed` of the second file of
`src/unnamed/part_001`: `args` is the tail of the fields when there is more
than one field and empty otherwise, and the binary is `commandFields[0]` —
an index access that is out of bounds when the field list is empty, which
the embedding records as `none`. -/
def runTimedArgv (command : String) : Option (String × List String) :=
  let commandFields := goFields command
  let args := if commandFields.length > 1 then commandFields.tail else []
  match commandFields with
  | [] => none
  | bin :: _ => some (bin, args)

/-- The `RunTimed` function of the second file of `src/unnamed/part_001`:
tokenize the command line, run it through `Spawn` and return the combined
output text; `none` records the out-of-bounds panic of the tokenization. -/
def RunTimed (command : String) (env : SpawnEnv) (sch : Sched) :
    Option (String × Option GoErr) :=
  match runTimedArgv command with
  | none => none
  | some _ =>
    match Part0.Spawn env sch with
    | (output, none) => some (output.Combine, none)
    | (_, some e) => some ("", some e)

end PartB

/-- Goroutine environment of a clean run that exits with status 7: both
reads reach end of stream and the wait returns an `exec.ExitError` with
code 7. -/
def gExit7 : GEnv :=
  { readOut := { data := "out-a", err := none },
    readErr := { data := "err-a", err := none },
    wait := some (GoErr.exitError 7) }

/-- Spawn environment of a successful launch of the run `gExit7`, with both
kill syscalls succeeding if ever issued. -/
def envExit7 : SpawnEnv :=
  { stdoutPipeErr := none, stderrPipeErr := none, startErr := none,
    pid := 42, g := gExit7, sigterm := none, sigkill := none }

/-- Schedule in which the goroutine completes before the deadline and the
select receives the first attempted send. -/
def schedMain : Sched := { deadlineFirst := false, pickOutWhenBoth := false }

/-- Schedule in which the goroutine completes before the deadline and the
select picks the output buffer when both buffers are full. -/
def schedOut : Sched := { deadlineFirst := false, pickOutWhenBoth := true }

/-- Schedule in which the deadline wins the race. -/
def schedTO : Sched := { deadlineFirst := true, pickOutWhenBoth := false }

/-- Spawn environment whose SIGTERM send fails while the SIGKILL send
succeeds. -/
def envTOb : SpawnEnv := { envExit7 with sigterm := some (GoErr.osErr 1) }

/-- Spawn environment in which both kill sends fail. -/
def envTOc : SpawnEnv :=
  { envExit7 with sigterm := some (GoErr.osErr 1), sigkill := some (GoErr.osErr 3) }

/-- Spawn environment whose `cmd.Start` fails, as for a missing
executable. -/
def envNoExe : SpawnEnv := { envExit7 with startErr := some (GoErr.osErr 2) }

/-- Goroutine environment in which the stdout read fails while the stderr
read succeeds and the wait reports exit status 0. -/
def gPipeFail3 : GEnv :=
  { readOut := { data := "", err := some (GoErr.osErr 5) },
    readErr := { data := "tail", err := none },
    wait := none }

/-- Spawn environment of a successful launch of the run `gPipeFail3`. -/
def envPipeFail3 : SpawnEnv := { envExit7 with g := gPipeFail3 }

/-- Goroutine environment in which the stdout read fails and the wait then
reports exit status 3. -/
def gPipeFail4 : GEnv :=
  { readOut := { data := "", err := some (GoErr.osErr 9) },
    readErr := { data := "rest", err := none },
    wait := some (GoErr.exitError 3) }

/-- Goroutine environment in which the stdout read fails midway, leaving
partial data in the buffer and the pipe undrained. -/
def gPartial5 : GEnv :=
  { readOut := { data := "parti", err := some (GoErr.osErr 11) },
    readErr := { data := "", err := none },
    wait := none }

/-- Goroutine environment of a clean run exiting with status 0. -/
def gOk0 : GEnv :=
  { readOut := { data := "out-a", err := none },
    readErr := { data := "err-a", err := none },
    wait := none }

/-- Spawn environment of a successful launch of the run `gOk0`. -/
def envOkP : SpawnEnv := { envExit7 with g := gOk0 }

/-- Every error matches itself under the embedded `errors.Is`. -/
theorem GoErr.is_self (e : GoErr) : e.is e = true := by
  cases e <;> simp [GoErr.is]

/-- Receiving from a single attempted send yields that send. -/
theorem received_single {ω : Type} (d : Delivery ω) (p : Bool) :
    received [d] p = some d := by
  cases d <;> rfl

/-- Receiving from an error send followed by the output send yields the one
the scheduler picks. -/
theorem received_pair {ω : Type} (e : GoErr) (o : ω) (p : Bool) :
    received [Delivery.toErrChan e, Delivery.toOutChan o] p
      = some (if p then Delivery.toOutChan o else Delivery.toErrChan e) := rfl

/-- The launch phase succeeds exactly when its three steps do. -/
theorem launchErr_none_iff (env : SpawnEnv) :
    launchErr env = none ↔
      env.stdoutPipeErr = none ∧ env.stderrPipeErr = none ∧ env.startErr = none := by
  unfold launchErr
  rcases h1 : env.stdoutPipeErr with _ | e1 <;>
    rcases h2 : env.stderrPipeErr with _ | e2 <;> simp

/-- Splitting a list of whitespace characters into fields yields no
field. -/
theorem fieldsAux_nil_of_ws :
    ∀ l : List Char, l.all Char.isWhitespace = true → PartB.fieldsAux [] l = [] := by
  intro l
  induction l with
  | nil => intro _; rfl
  | cons c cs ih =>
    intro h
    simp only [List.all_cons, Bool.and_eq_true] at h
    simp [PartB.fieldsAux, h.1, ih h.2]

/-- C3: at an input where the stdout read fails while the stderr read
succeeds and the wait reports exit status 0, the background unit of
`src/exec.go` attempts two deliveries — the read error on the error channel
and then an Output on the output channel — and the supervisor, depending on
the scheduling of its select, returns either the Output or the error; the
unit therefore delivers both an error and an Output for the same call. -/
theorem execgo_double_delivery_bug :
    ExecGo.sends gPipeFail3 =
      [Delivery.toErrChan (GoErr.osErr 5),
       Delivery.toOutChan { StdOut := "", StdErr := "tail", ExitCode := 0 }]
    ∧ ExecGo.Spawn envPipeFail3 schedOut =
      ({ StdOut := "", StdErr := "tail", ExitCode := 0 }, none)
    ∧ ExecGo.Spawn envPipeFail3 schedMain =
      (ExecGo.zeroOutput, some (GoErr.osErr 5)) :=
  ⟨rfl, rfl, rfl⟩

/-- C4: at an input where the stdout read fails, the background unit of
`src/exec.go` sends the read error but does not return: only one error send
precedes the wait, so the unit reaches the `cmd.Wait` call under every
scheduling, and its attempted sends end with an Output built from the wait
result — the wait is performed and an Output is delivered after the pipe
read failure. -/
theorem execgo_read_error_still_waits :
    ExecGo.errSendsBeforeWait gPipeFail4 = 1
    ∧ ExecGo.waitAlwaysReached gPipeFail4 = true
    ∧ ExecGo.sends gPipeFail4 =
      [Delivery.toErrChan (GoErr.osErr 9),
       Delivery.toOutChan { StdOut := "", StdErr := "rest", ExitCode := 3 }] :=
  ⟨rfl, rfl, rfl⟩

/-- C5: at an input where the stdout read fails midway, the stdout pipe is
not fully drained — the read did not reach end of stream — and yet the
background unit of `src/exec.go` still reaches the `cmd.Wait` call under
every scheduling and delivers an Output; the wait is reached with an
undrained pipe. -/
theorem execgo_wait_with_undrained_pipe :
    fullyDrained gPartial5.readOut = false
    ∧ ExecGo.waitAlwaysReached gPartial5 = true
    ∧ ExecGo.sends gPartial5 =
      [Delivery.toErrChan (GoErr.osErr 11),
       Delivery.toOutChan { StdOut := "parti", StdErr := "", ExitCode := 0 }] :=
  ⟨rfl, rfl, rfl⟩

/-- C1 counterexample: in the `Spawn` of `src/unnamed/part_000` — one of
the code places the claim names — a wait that reports termination with exit
status 7 is sent to the error channel, and the supervisor, receiving the
first attempted send, returns it as an error with the zero Output; a
non-zero exit is thus returned as an error from `Spawn`, and its `Output`
type has no exit code field at all. -/
theorem part0_exit_status_returned_as_error :
    Part0.Spawn envExit7 schedMain =
      (Part0.zeroOutput, some (GoErr.exitError 7)) := rfl

/-- C7 counterexample: `RunShTimed` of `src/unnamed/part_001` does not pass
the command text unmodified to `sh -c` — on the command `echo hi` the
argument vector differs from the unmodified one. -/
theorem runshtimed_arg_not_unmodified :
    PartB.runShTimedArgv "echo hi" ≠ ["sh", "-c", "echo hi"] := by decide

/-- C1 (amended): in the `src/exec.go` variant, for every call whose launch
succeeds, whose pipe reads both reach end of stream, whose wait reports
termination via an exit status and whose deadline does not fire, `Spawn`
returns a success Output carrying the captured streams and that exit status
with a nil error — a non-zero exit is never returned as an error; in the
`src/unnamed/part_000` variant, whose Output has no exit code field, a wait
reporting a non-zero exit status is delivered as an error, and the
supervisor receiving the first attempted send returns it as an error. -/
theorem spawn_exit_status_variants :
    (∀ (env : SpawnEnv) (sch : Sched) (n : Int),
      env.stdoutPipeErr = none → env.stderrPipeErr = none → env.startErr = none →
      sch.deadlineFirst = false →
      env.g.readOut.err = none → env.g.readErr.err = none →
      waitCode env.g.wait = some n →
      ExecGo.Spawn env sch =
        ({ StdOut := env.g.readOut.data, StdErr := env.g.readErr.data,
           ExitCode := n }, none))
    ∧
    (∀ (env : SpawnEnv) (sch : Sched) (k : Int),
      env.stdoutPipeErr = none → env.stderrPipeErr = none → env.startErr = none →
      sch.deadlineFirst = false → sch.pickOutWhenBoth = false →
      env.g.readOut.err = none → env.g.readErr.err = none →
      env.g.wait = some (GoErr.exitError k) →
      Part0.Spawn env sch = (Part0.zeroOutput, some (GoErr.exitError k))) := by
  constructor
  · intro env sch n h1 h2 h3 h4 h5 h6 h7
    rcases hw : env.g.wait with _ | e
    · rw [hw] at h7
      simp only [waitCode, Option.some.injEq] at h7
      simp [ExecGo.Spawn, h1, h2, h3, h4, ExecGo.sends, h5, h6, hw,
        received_single, ← h7]
    · rw [hw] at h7
      cases e <;> simp [waitCode] at h7
      case exitError c =>
        simp [ExecGo.Spawn, h1, h2, h3, h4, ExecGo.sends, h5, h6, hw,
          received_single, h7]
  · intro env sch k h1 h2 h3 h4 hp h5 h6 hw
    simp [Part0.Spawn, h1, h2, h3, h4, Part0.sends, h5, h6, hw,
      received_pair, hp]

/-- C2: in `src/exec.go`, whenever the launch succeeded and the deadline
wins the race, the supervisor first sends SIGTERM to the negated pid (the
process-group identifier negated); if that send succeeds it returns the
timeout error with the zero Output; if it fails it sends SIGKILL to the
same negated pid, returning the timeout error when that send succeeds; and
only when both sends fail it returns the join of the OS error of the
SIGKILL send, the timeout marker and the kill-failure marker, each of the
three testable through the embedded `errors.Is`.  The outcome of this
branch does not depend on the goroutine environment, so the supervisor does
not wait for the process to exit. -/
theorem spawn_timeout_escalation (env : SpawnEnv) (sch : Sched)
    (h1 : env.stdoutPipeErr = none) (h2 : env.stderrPipeErr = none)
    (h3 : env.startErr = none) (hd : sch.deadlineFirst = true) :
    (env.sigterm = none →
      ExecGo.Spawn env sch = (ExecGo.zeroOutput, some GoErr.timeout) ∧
      ExecGo.killCalls env sch = [(-env.pid, SIGTERM)])
    ∧ (∀ e1, env.sigterm = some e1 → env.sigkill = none →
      ExecGo.Spawn env sch = (ExecGo.zeroOutput, some GoErr.timeout) ∧
      ExecGo.killCalls env sch = [(-env.pid, SIGTERM), (-env.pid, SIGKILL)])
    ∧ (∀ e1 e2, env.sigterm = some e1 → env.sigkill = some e2 →
      ExecGo.Spawn env sch =
        (ExecGo.zeroOutput, some (GoErr.join3 e2 GoErr.timeout GoErr.failToKill)) ∧
      (GoErr.join3 e2 GoErr.timeout GoErr.failToKill).is GoErr.timeout = true ∧
      (GoErr.join3 e2 GoErr.timeout GoErr.failToKill).is GoErr.failToKill = true ∧
      (GoErr.join3 e2 GoErr.timeout GoErr.failToKill).is e2 = true)
    ∧ (∀ g2 : GEnv, ExecGo.Spawn { env with g := g2 } sch = ExecGo.Spawn env sch) := by
  have hle : launchErr env = none := (launchErr_none_iff env).mpr ⟨h1, h2, h3⟩
  refine ⟨?_, ?_, ?_, ?_⟩
  · intro ht
    constructor
    · simp [ExecGo.Spawn, h1, h2, h3, hd, ht]
    · simp [ExecGo.killCalls, hle, hd, ht]
  · intro e1 ht hk
    constructor
    · simp [ExecGo.Spawn, h1, h2, h3, hd, ht, hk]
    · simp [ExecGo.killCalls, hle, hd, ht]
  · intro e1 e2 ht hk
    refine ⟨by simp [ExecGo.Spawn, h1, h2, h3, hd, ht, hk], ?_, ?_, ?_⟩
    · simp [GoErr.is]
    · simp [GoErr.is]
    · simp [GoErr.is, GoErr.is_self]
  · intro g2
    simp [ExecGo.Spawn, h1, h2, h3, hd]

/-- C6: in `src/exec.go`, whenever the launch phase fails — a pipe creation
or the start of the process returns an error — `Spawn` returns the zero
Output together with that error, the background unit is not started, and no
delivery is ever attempted on the completion channels for that call. -/
theorem spawn_launch_error_no_background (env : SpawnEnv) (sch : Sched)
    (e : GoErr) (h : launchErr env = some e) :
    ExecGo.Spawn env sch = (ExecGo.zeroOutput, some e)
    ∧ backgroundStarted env = false
    ∧ ExecGo.deliveries env = [] := by
  have hb : backgroundStarted env = false := by
    simp [backgroundStarted, h]
  refine ⟨?_, hb, by simp [ExecGo.deliveries, hb]⟩
  unfold launchErr at h
  rcases h1 : env.stdoutPipeErr with _ | e1
  · rcases h2 : env.stderrPipeErr with _ | e2
    · rcases h3 : env.startErr with _ | e3
      · rw [h1, h2, h3] at h; cases h
      · rw [h1, h2, h3] at h
        simp only [Option.some.injEq] at h
        simp [ExecGo.Spawn, h1, h2, h3, h]
    · rw [h1, h2] at h
      simp only [Option.some.injEq] at h
      simp [ExecGo.Spawn, h1, h2, h]
  · rw [h1] at h
    simp only [Option.some.injEq] at h
    simp [ExecGo.Spawn, h1, h]

/-- C7 (amended): the `RunTimedSh` of `src/exec.go` passes the command text
to `sh -c` unmodified, while the `RunShTimed` of `src/unnamed/part_001`
wraps the text in literal single quotes first, so for every command the two
argument vectors differ. -/
theorem shell_arg_construction (c : String) :
    ExecGo.runTimedShArgv c = ["sh", "-c", c]
    ∧ PartB.runShTimedArgv c = ["sh", "-c", PartB.squote ++ c ++ PartB.squote]
    ∧ PartB.runShTimedArgv c ≠ ExecGo.runTimedShArgv c := by
  refine ⟨rfl, rfl, ?_⟩
  intro h
  simp only [PartB.runShTimedArgv, ExecGo.runTimedShArgv, List.cons.injEq,
    and_true, true_and] at h
  have hlen := congrArg String.length h
  have hq : PartB.squote.length = 1 := rfl
  simp only [String.length_append, hq] at hlen
  omega

/-- C8: the tokenizing convenience entry `RunTimed` of
`src/unnamed/part_001` splits the command line on whitespace, takes the
first token as the executable and the remaining tokens as the argument
list, and on success returns the captured stdout text followed by the
captured stderr text, which is exactly what `Output.Combine` computes. -/
theorem runtimed_tokenize_and_combine (c b : String) (rest : List String)
    (env : SpawnEnv) (sch : Sched) (h : PartB.goFields c = b :: rest) :
    PartB.runTimedArgv c = some (b, rest)
    ∧ (∀ o : Part0.Output, Part0.Spawn env sch = (o, none) →
        PartB.RunTimed c env sch = some (o.StdOut ++ o.StdErr, none))
    ∧ (∀ o : Part0.Output, o.Combine = o.StdOut ++ o.StdErr) := by
  have ha : PartB.runTimedArgv c = some (b, rest) := by
    cases rest with
    | nil => simp [PartB.runTimedArgv, h]
    | cons r rs => simp [PartB.runTimedArgv, h]
  refine ⟨ha, ?_, fun o => rfl⟩
  intro o hs
  simp [PartB.RunTimed, ha, hs, Part0.Output.Combine]

/-- C9: whenever a convenience entry — `RunTimedSh` of `src/exec.go`,
`RunShTimed` or `RunTimed` of `src/unnamed/part_001` — returns a non-nil
error, the text it returns is the empty string; and on a deadline expiry
with a successful SIGTERM send, `RunTimedSh` returns the empty string and
the timeout error. -/
theorem convenience_error_empty_text (c : String) (env : SpawnEnv) (sch : Sched) :
    (∀ e, (ExecGo.RunTimedSh c env sch).2 = some e →
      (ExecGo.RunTimedSh c env sch).1 = "")
    ∧ (∀ e, (PartB.RunShTimed c env sch).2 = some e →
      (PartB.RunShTimed c env sch).1 = "")
    ∧ (∀ r e, PartB.RunTimed c env sch = some r → r.2 = some e → r.1 = "")
    ∧ (launchErr env = none → sch.deadlineFirst = true → env.sigterm = none →
      ExecGo.RunTimedSh c env sch = ("", some GoErr.timeout)) := by
  refine ⟨?_, ?_, ?_, ?_⟩
  · intro e
    rcases hs : ExecGo.Spawn env sch with ⟨o, _ | e2⟩ <;>
      simp [ExecGo.RunTimedSh, hs]
  · intro e
    rcases hs : Part0.Spawn env sch with ⟨o, _ | e2⟩ <;>
      simp [PartB.RunShTimed, hs]
  · intro r e hr
    rcases ha : PartB.runTimedArgv c with _ | p
    · simp [PartB.RunTimed, ha] at hr
    · rcases hs : Part0.Spawn env sch with ⟨o, _ | e2⟩ <;>
        simp [PartB.RunTimed, ha, hs] at hr <;> rw [← hr] <;> simp
  · intro hl hd ht
    obtain ⟨h1, h2, h3⟩ := (launchErr_none_iff env).mp hl
    have hs : ExecGo.Spawn env sch = (ExecGo.zeroOutput, some GoErr.timeout) := by
      simp [ExecGo.Spawn, h1, h2, h3, hd, ht]
    simp [ExecGo.RunTimedSh, hs]

/-- C10: for every command string all of whose characters are whitespace,
the split of `RunTimed` of `src/unnamed/part_001` yields an empty token
list and the access of `commandFields[0]` is out of bounds, so the call
fails on the index access (recorded as `none`) instead of returning a
launch error; and for every command string with at least one token the call
never fails on the index access. -/
theorem runtimed_whitespace_panics (c : String) (env : SpawnEnv) (sch : Sched)
    (h : c.data.all Char.isWhitespace = true) :
    PartB.goFields c = []
    ∧ PartB.runTimedArgv c = none
    ∧ PartB.RunTimed c env sch = none
    ∧ (∀ c2 : String, PartB.goFields c2 ≠ [] → PartB.RunTimed c2 env sch ≠ none) := by
  have hg : PartB.goFields c = [] := fieldsAux_nil_of_ws c.data h
  have ha : PartB.runTimedArgv c = none := by
    simp [PartB.runTimedArgv, hg]
  refine ⟨hg, ha, by simp [PartB.RunTimed, ha], ?_⟩
  intro c2 hne
  rcases hg2 : PartB.goFields c2 with _ | ⟨b, rest⟩
  · exact absurd hg2 hne
  · have ha2 : PartB.runTimedArgv c2 = some (b, if rest.length + 1 > 1 then rest else []) := by
      simp [PartB.runTimedArgv, hg2]
    rcases hs : Part0.Spawn env sch with ⟨o, _ | e2⟩ <;>
      simp [PartB.RunTimed, ha2, hs]

/-- C1 witness: at the concrete run exiting with status 7, the exec.go
Spawn returns the captured streams with exit code 7 and a nil error, while
the part_000 Spawn returns the exit status as an error. -/
theorem spawn_exit_status_variants_witness :
    waitCode envExit7.g.wait = some 7
    ∧ ExecGo.Spawn envExit7 schedMain =
        ({ StdOut := "out-a", StdErr := "err-a", ExitCode := 7 }, none)
    ∧ Part0.Spawn envExit7 schedMain =
        (Part0.zeroOutput, some (GoErr.exitError 7)) :=
  ⟨rfl,
   spawn_exit_status_variants.1 envExit7 schedMain 7 rfl rfl rfl rfl rfl rfl rfl,
   spawn_exit_status_variants.2 envExit7 schedMain 7 rfl rfl rfl rfl rfl rfl rfl rfl⟩

/-- C2 witness: the three timeout outcomes at concrete environments —
successful SIGTERM, failed SIGTERM with successful SIGKILL, and both sends
failing — with the kill calls targeting the negated pid. -/
theorem spawn_timeout_escalation_witness :
    ExecGo.Spawn envExit7 schedTO = (ExecGo.zeroOutput, some GoErr.timeout)
    ∧ ExecGo.killCalls envExit7 schedTO = [(-42, SIGTERM)]
    ∧ ExecGo.Spawn envTOb schedTO = (ExecGo.zeroOutput, some GoErr.timeout)
    ∧ ExecGo.killCalls envTOb schedTO = [(-42, SIGTERM), (-42, SIGKILL)]
    ∧ ExecGo.Spawn envTOc schedTO =
        (ExecGo.zeroOutput,
         some (GoErr.join3 (GoErr.osErr 3) GoErr.timeout GoErr.failToKill))
    ∧ (GoErr.join3 (GoErr.osErr 3) GoErr.timeout GoErr.failToKill).is
        GoErr.timeout = true :=
  ⟨((spawn_timeout_escalation envExit7 schedTO rfl rfl rfl rfl).1 rfl).1,
   ((spawn_timeout_escalation envExit7 schedTO rfl rfl rfl rfl).1 rfl).2,
   ((spawn_timeout_escalation envTOb schedTO rfl rfl rfl rfl).2.1
     (GoErr.osErr 1) rfl rfl).1,
   ((spawn_timeout_escalation envTOb schedTO rfl rfl rfl rfl).2.1
     (GoErr.osErr 1) rfl rfl).2,
   ((spawn_timeout_escalation envTOc schedTO rfl rfl rfl rfl).2.2.1
     (GoErr.osErr 1) (GoErr.osErr 3) rfl rfl).1,
   ((spawn_timeout_escalation envTOc schedTO rfl rfl rfl rfl).2.2.1
     (GoErr.osErr 1) (GoErr.osErr 3) rfl rfl).2.1⟩

/-- C6 witness: at a concrete environment whose process start fails, Spawn
returns that error with the zero Output and nothing is ever delivered on
the completion channels. -/
theorem spawn_launch_error_witness :
    launchErr envNoExe = some (GoErr.osErr 2)
    ∧ ExecGo.Spawn envNoExe schedMain = (ExecGo.zeroOutput, some (GoErr.osErr 2))
    ∧ ExecGo.deliveries envNoExe = [] :=
  ⟨rfl,
   (spawn_launch_error_no_background envNoExe schedMain (GoErr.osErr 2) rfl).1,
   (spawn_launch_error_no_background envNoExe schedMain (GoErr.osErr 2) rfl).2.2⟩

/-- C8 witness: a concrete command line is tokenized into executable and
arguments, and a successful run returns the concatenated stdout and stderr
text. -/
theorem runtimed_tokenize_witness :
    PartB.goFields "ls -l /tmp" = ["ls", "-l", "/tmp"]
    ∧ PartB.runTimedArgv "ls -l /tmp" = some ("ls", ["-l", "/tmp"])
    ∧ PartB.RunTimed "ls -l /tmp" envOkP schedMain = some ("out-aerr-a", none) := by
  have h := runtimed_tokenize_and_combine "ls -l /tmp" "ls" ["-l", "/tmp"]
    envOkP schedMain rfl
  exact ⟨rfl, h.1, h.2.1 { StdOut := "out-a", StdErr := "err-a" } rfl⟩

/-- C9 witness: a failing launch yields the empty text, and a deadline
expiry with a successful SIGTERM send yields the empty text with the
timeout error. -/
theorem convenience_error_empty_witness :
    (ExecGo.RunTimedSh "x" envNoExe schedMain).1 = ""
    ∧ ExecGo.RunTimedSh "pause" envExit7 schedTO = ("", some GoErr.timeout) :=
  ⟨(convenience_error_empty_text "x" envNoExe schedMain).1 (GoErr.osErr 2) rfl,
   (convenience_error_empty_text "pause" envExit7 schedTO).2.2.2 rfl rfl rfl⟩

/-- C10 witness: a whitespace-only command line yields no fields and the
call fails on the out-of-bounds index access. -/
theorem runtimed_whitespace_witness :
    " \t ".data.all Char.isWhitespace = true
    ∧ PartB.goFields " \t " = []
    ∧ PartB.RunTimed " \t " envExit7 schedMain = none :=
  ⟨rfl,
   (runtimed_whitespace_panics " \t " envExit7 schedMain rfl).1,
   (runtimed_whitespace_panics " \t " envExit7 schedMain rfl).2.2.1⟩

end Grace
